import Mathlib

/-!
Shallow embedding of `src/gum/gumscript.cpp` (the frida-gum V8 script host).

The scripting engine (V8) is external to the repository; its observable
behaviour at the two points where the host consults it — compiling a source
string and running the compiled program — is abstracted into an `Engine`
record of two functions, each returning `none` on success or the engine's
diagnostic (`JsFailure`: 1-based line number in the combined source, plus
exception text) on failure.

The per-instance state `ScriptState` mirrors `GumScriptPrivate`: the source
text, presence of the persistent execution context (`context`), presence of
the compiled program (`raw_script`), the `loaded` flag, and presence of the
isolate reference.  Calls into the eleven subsystem bindings, the message
channel and the stalker are recorded as an event trace (`Event`), since their
internals live outside this file's source.
-/

set_option autoImplicit false

namespace GumScript

/-- `#define GUM_SCRIPT_RUNTIME_SOURCE_LINE_COUNT 1` (gumscript.cpp line 30). -/
def GUM_SCRIPT_RUNTIME_SOURCE_LINE_COUNT : Nat := 1

/-- Diagnostic produced by the engine for a failed compile or an uncaught
runtime exception: `GetLineNumber ()` of the message (1-based, counted in
the combined bootstrap+user source) and the exception text. -/
structure JsFailure where
  lineNumber : Nat
  exceptionText : String
  deriving DecidableEq, Repr

/-- Observable behaviour of the external V8 engine: what `Script::Compile`
and `Script::Run` do for a given combined source text.  `none` means
success; `some f` means the empty-handle / caught-exception outcome. -/
structure Engine where
  compile : String → Option JsFailure
  run : String → Option JsFailure

/-- The eleven subsystem bindings registered into a script's global
namespace (fields of `GumScriptPrivate`). -/
inductive Binding where
  | core
  | memory
  | process
  | thread
  | module
  | file
  | socket
  | interceptor
  | stalker
  | symbol
  | instruction
  deriving DecidableEq, Repr

/-- Observable calls made by the host into external collaborators, in
program order. -/
inductive Event where
  | initB (b : Binding)
  | realizeB (b : Binding)
  | disposeB (b : Binding)
  | finalizeB (b : Binding)
  | coreFlush
  | contextCreated
  | contextEntered
  | contextExited
  | releaseRawScript
  | releaseContext
  | setLoaded (b : Bool)
  | runProgram
  | emitMessage (m : String)
  | stalkerProcessPending
  | debugHookInstalled
  | debugHookRemoved
  | retainDebugContext
  | releaseDebugContext
  | notifyInvoked (notify : Nat) (data : Nat)
  deriving DecidableEq, Repr

/-- State of `GumScriptPrivate` for one script instance.  Pointer-valued
fields (`context`, `raw_script`, `isolate`) are modelled by their
presence. -/
structure ScriptState where
  source : String
  context : Bool
  raw_script : Bool
  loaded : Bool
  isolate : Bool
  deriving DecidableEq, Repr

/-- `gum_script_init`: fresh instance, isolate acquired from the runtime,
`loaded = FALSE`, context and compiled program absent. -/
def ScriptState.initial (source : String) : ScriptState :=
  { source := source, context := false, raw_script := false,
    loaded := false, isolate := true }

/-- `g_strconcat (#include "gumscript-runtime.h", "\n", priv->source, NULL)`:
the bootstrap runtime source, a newline, then the user's source. -/
def combinedSource (runtimeSource userSource : String) : String :=
  runtimeSource ++ "\n" ++ userSource

/-- The error set by `gum_script_create_context` on compile failure:
`g_set_error (..., "Script(line %d): %s", line - RUNTIME_SOURCE_LINE_COUNT,
exception)`.  The line is kept as a field (C `int` arithmetic, hence `Int`)
together with the exception text. -/
structure GError where
  line : Int
  exceptionText : String
  deriving DecidableEq, Repr

/-- The formatted message string of the `GError`. -/
def GError.message (e : GError) : String :=
  "Script(line " ++ toString e.line ++ "): " ++ e.exceptionText

/-- Init/realize order of the eleven bindings in
`gum_script_create_context` (lines 336-349 and 354-364). -/
def initOrder : List Binding :=
  [Binding.core, Binding.memory, Binding.process, Binding.thread,
   Binding.module, Binding.file, Binding.socket, Binding.interceptor,
   Binding.stalker, Binding.symbol, Binding.instruction]

/-- Dispose order written out in `gum_script_destroy_context`
(lines 417-427). -/
def disposeOrder : List Binding :=
  [Binding.instruction, Binding.symbol, Binding.stalker,
   Binding.interceptor, Binding.socket, Binding.file, Binding.module,
   Binding.thread, Binding.process, Binding.memory, Binding.core]

/-- Finalize order written out in `gum_script_destroy_context`
(lines 435-445). -/
def finalizeOrder : List Binding :=
  [Binding.instruction, Binding.symbol, Binding.stalker,
   Binding.interceptor, Binding.socket, Binding.file, Binding.module,
   Binding.thread, Binding.process, Binding.memory, Binding.core]

/-- `gum_script_destroy_context`: inside the entered context, flush the
core binding and dispose every binding in the listed order; leave the
context scope; delete the `raw_script` and `context` persistent handles;
finalize every binding; clear `loaded`.  (The function `g_assert`s
`priv->context != NULL`; the model is its behaviour on that path.) -/
def gum_script_destroy_context (s : ScriptState) : ScriptState × List Event :=
  ( { s with context := false, raw_script := false, loaded := false },
    [Event.contextEntered,
     Event.coreFlush,
     Event.disposeB Binding.instruction,
     Event.disposeB Binding.symbol,
     Event.disposeB Binding.stalker,
     Event.disposeB Binding.interceptor,
     Event.disposeB Binding.socket,
     Event.disposeB Binding.file,
     Event.disposeB Binding.module,
     Event.disposeB Binding.thread,
     Event.disposeB Binding.process,
     Event.disposeB Binding.memory,
     Event.disposeB Binding.core,
     Event.contextExited,
     Event.releaseRawScript,
     Event.releaseContext,
     Event.finalizeB Binding.instruction,
     Event.finalizeB Binding.symbol,
     Event.finalizeB Binding.stalker,
     Event.finalizeB Binding.interceptor,
     Event.finalizeB Binding.socket,
     Event.finalizeB Binding.file,
     Event.finalizeB Binding.module,
     Event.finalizeB Binding.thread,
     Event.finalizeB Binding.process,
     Event.finalizeB Binding.memory,
     Event.finalizeB Binding.core,
     Event.setLoaded false] )

/-- Result of `gum_script_create_context`: the C function's `gboolean`
return, the instance state afterwards, the `GError` out-parameter, and the
trace of external calls. -/
structure CreateContextResult where
  ok : Bool
  priv : ScriptState
  error : Option GError
  events : List Event
  deriving Repr

/-- Events of the successful prefix of `gum_script_create_context`:
init all bindings into the global template, create and enter the context,
realize all bindings. -/
def createContextPrefix : List Event :=
  (initOrder.map Event.initB) ++ [Event.contextCreated, Event.contextEntered]
    ++ (initOrder.map Event.realizeB)

/-- `gum_script_create_context` (lines 322-398): init and realize the
eleven bindings, compile the bootstrap+user source; on an empty compile
result set the error to the message's line number minus
`GUM_SCRIPT_RUNTIME_SOURCE_LINE_COUNT` plus the exception text, then (the
`raw_script == NULL` check after the scope block) tear the context down and
return `FALSE`; on success retain the compiled program and return
`TRUE`. -/
def gum_script_create_context (E : Engine) (runtimeSource : String)
    (s : ScriptState) : CreateContextResult :=
  let s1 : ScriptState := { s with context := true }
  match E.compile (combinedSource runtimeSource s.source) with
  | some f =>
      let err : GError :=
        { line := (f.lineNumber : Int) - (GUM_SCRIPT_RUNTIME_SOURCE_LINE_COUNT : Int),
          exceptionText := f.exceptionText }
      let d := gum_script_destroy_context s1
      { ok := false, priv := d.1, error := some err,
        events := createContextPrefix ++ [Event.contextExited] ++ d.2 }
  | none =>
      { ok := true, priv := { s1 with raw_script := true }, error := none,
        events := createContextPrefix ++ [Event.contextExited] }

/-- Result of `gum_script_from_string`: the returned handle (NULL on
failure), the `GError` out-parameter, the final state of the (possibly
unreferenced) instance, and the trace. -/
structure FromStringResult where
  script : Option ScriptState
  error : Option GError
  priv : ScriptState
  events : List Event
  deriving Repr

/-- `gum_script_from_string` (lines 450-465): construct a fresh instance
with the given source, try to create its context; on failure unref the
instance and return NULL. -/
def gum_script_from_string (E : Engine) (runtimeSource : String)
    (source : String) : FromStringResult :=
  let r := gum_script_create_context E runtimeSource (ScriptState.initial source)
  if r.ok then
    { script := some r.priv, error := r.error, priv := r.priv, events := r.events }
  else
    { script := none, error := r.error, priv := r.priv, events := r.events }

/-- GLib `g_strescape` applied to one character.  Modelled from the spec:
`g_strescape` is GLib library code, not part of this repository; the spec
only requires the description text to be escaped for embedding in the JSON
error message. -/
def g_strescape_char (c : Char) : List Char :=
  if c = '\\' then ['\\', '\\']
  else if c = '"' then ['\\', '"']
  else if c = '\n' then ['\\', 'n']
  else if c = '\r' then ['\\', 'r']
  else if c = '\t' then ['\\', 't']
  else [c]

/-- GLib `g_strescape` over a string.  Modelled from the spec (see
`g_strescape_char`). -/
def g_strescape (s : String) : String :=
  String.mk (s.data.flatMap g_strescape_char)

/-- The JSON error message built in `ScriptScopeImpl::~ScriptScopeImpl`:
`"{\"type\":\"error\",\"lineNumber\":%d,\"description\":\"%s\"}"` with the
message's line number minus `GUM_SCRIPT_RUNTIME_SOURCE_LINE_COUNT` and the
escaped exception text. -/
def gum_error_message (f : JsFailure) : String :=
  "\x7b\"type\":\"error\",\"lineNumber\":"
    ++ toString ((f.lineNumber : Int) - (GUM_SCRIPT_RUNTIME_SOURCE_LINE_COUNT : Int))
    ++ ",\"description\":\"" ++ g_strescape f.exceptionText ++ "\"\x7d"

/-- Destruction of a `ScriptScope` (lines 622-640 and 658-664): the inner
`ScriptScopeImpl` destructor emits one error message on the message channel
iff the `TryCatch` caught an uncaught exception (`caught`), then the outer
destructor always calls `_gum_script_stalker_process_pending`. -/
def scriptScopeExit (caught : Option JsFailure) : List Event :=
  (match caught with
   | some f => [Event.emitMessage (gum_error_message f)]
   | none => []) ++ [Event.stalkerProcessPending]

/-- `gum_script_load` (lines 482-498): if there is no compiled program,
try to (re)create the context passing `NULL` for the error out-parameter
(the error is discarded); then, if a compiled program exists and the
instance is not loaded, set `loaded`, enter a `ScriptScope`, run the
program, and leave the scope. -/
def gum_script_load (E : Engine) (runtimeSource : String)
    (s : ScriptState) : ScriptState × List Event :=
  let r1 :=
    if s.raw_script then (s, ([] : List Event))
    else
      let r := gum_script_create_context E runtimeSource s
      (r.priv, r.events)
  let s1 := r1.1
  if s1.raw_script && !s1.loaded then
    ( { s1 with loaded := true },
      r1.2 ++ [Event.setLoaded true, Event.runProgram]
        ++ scriptScopeExit (E.run (combinedSource runtimeSource s1.source)) )
  else
    (s1, r1.2)

/-- `gum_script_unload` (lines 500-511): if loaded, clear the flag and
destroy the context; otherwise do nothing. -/
def gum_script_unload (s : ScriptState) : ScriptState × List Event :=
  if s.loaded then
    let d := gum_script_destroy_context { s with loaded := false }
    (d.1, Event.setLoaded false :: d.2)
  else
    (s, [])

/-- `gum_script_dispose` (lines 260-271): unload, then drop the isolate
reference. -/
def gum_script_dispose (s : ScriptState) : ScriptState × List Event :=
  let u := gum_script_unload s
  ({ u.1 with isolate := false }, u.2)

/-- The spec's Script Instance invariant: execution context and compiled
program are both present or both absent, and `loaded` implies a compiled
program is present. -/
def ScriptInv (s : ScriptState) : Prop :=
  s.context = s.raw_script ∧ (s.loaded = true → s.raw_script = true)

instance (s : ScriptState) : Decidable (ScriptInv s) := by
  unfold ScriptInv
  infer_instance

/-- Process-wide state of the debug bridge: the four globals
`gum_debug_handler`, `gum_debug_data`, `gum_debug_notify`,
`gum_debug_context`, plus whether the engine's `Debug::SetMessageHandler`
hook is currently installed.  Pointers are modelled by `Option Nat` /
`Nat` identities. -/
structure DebugState where
  gum_debug_handler : Option Nat
  gum_debug_data : Nat
  gum_debug_notify : Option Nat
  gum_debug_context : Bool
  engineHook : Bool
  deriving DecidableEq, Repr

/-- All-NULL initial values of the debug globals (lines 161-164). -/
def DebugState.initial : DebugState :=
  { gum_debug_handler := none, gum_debug_data := 0, gum_debug_notify := none,
    gum_debug_context := false, engineHook := false }

/-- `gum_script_set_debug_message_handler` (lines 520-555): under the
isolate lock, if a handler is registered, delete the debug-context
reference, remove the engine hook, invoke the old notify on the old data,
and clear the globals; then, if the new `func` is non-NULL, store the new
triple, install the engine hook, and retain the debug context. -/
def gum_script_set_debug_message_handler (func : Option Nat) (data : Nat)
    (notify : Option Nat) (st : DebugState) : DebugState × List Event :=
  let r1 :=
    if st.gum_debug_handler.isSome then
      ( { gum_debug_handler := none, gum_debug_data := 0,
          gum_debug_notify := none, gum_debug_context := false,
          engineHook := false },
        [Event.releaseDebugContext, Event.debugHookRemoved]
          ++ (match st.gum_debug_notify with
              | some n => [Event.notifyInvoked n st.gum_debug_data]
              | none => []) )
    else (st, ([] : List Event))
  match func with
  | some f =>
      ( { gum_debug_handler := some f, gum_debug_data := data,
          gum_debug_notify := notify, gum_debug_context := true,
          engineHook := true },
        r1.2 ++ [Event.debugHookInstalled, Event.retainDebugContext] )
  | none => r1

/-- Recogniser for message-channel emissions in a trace. -/
def Event.isEmit : Event → Bool
  | Event.emitMessage _ => true
  | _ => false

/-- Recogniser for executions of the compiled program in a trace. -/
def Event.isRun : Event → Bool
  | Event.runProgram => true
  | _ => false

/-- Recogniser for stalker `process_pending` signals in a trace. -/
def Event.isStalkerSignal : Event → Bool
  | Event.stalkerProcessPending => true
  | _ => false

/-- Recogniser for debug-handler release-callback invocations in a trace. -/
def Event.isNotify : Event → Bool
  | Event.notifyInvoked _ _ => true
  | _ => false

/-- Example engine whose compile step fails at combined-source line 3. -/
def engineCompileFail : Engine :=
  { compile := fun _ =>
      some { lineNumber := 3, exceptionText := "SyntaxError: Unexpected token" },
    run := fun _ => none }

/-- Example engine for which both compile and run succeed. -/
def engineOk : Engine :=
  { compile := fun _ => none, run := fun _ => none }

/-- Example engine that compiles but throws at combined-source line 2. -/
def engineRunFail : Engine :=
  { compile := fun _ => none,
    run := fun _ => some { lineNumber := 2, exceptionText := "Error: boom" } }

/-- Helper: destroying a `ScriptScope` never runs the compiled program. -/
theorem scriptScopeExit_countP_isRun (c : Option JsFailure) :
    (scriptScopeExit c).countP Event.isRun = 0 := by
  cases c <;> rfl

/-- C4: `gum_script_destroy_context` first flushes the core binding, then
disposes all 11 bindings in the exact reverse of init order inside the
entered context, releases the compiled-program and context references, and
then finalizes all 11 bindings in the same reverse order outside the
context scope. -/
theorem destroy_context_reverse_order (s : ScriptState) :
    disposeOrder = initOrder.reverse
    ∧ finalizeOrder = initOrder.reverse
    ∧ gum_script_destroy_context s =
        ({ s with context := false, raw_script := false, loaded := false },
         [Event.contextEntered, Event.coreFlush]
           ++ disposeOrder.map Event.disposeB
           ++ [Event.contextExited, Event.releaseRawScript, Event.releaseContext]
           ++ finalizeOrder.map Event.finalizeB
           ++ [Event.setLoaded false]) := by
  exact ⟨by decide, by decide, rfl⟩

/-- C2: on destruction of an Execution Scope after an uncaught script
exception, exactly one message of shape
`\x7b"type":"error","lineNumber":N,"description":"<escaped text>"\x7d` is
emitted on the message channel, and the scope returns normally (the
exception is converted to data, never propagated); with no exception, no
message is emitted. -/
theorem scriptscope_exception_to_single_message (f : JsFailure) :
    scriptScopeExit (some f) =
      [Event.emitMessage (gum_error_message f), Event.stalkerProcessPending]
    ∧ (scriptScopeExit (some f)).countP Event.isEmit = 1
    ∧ (scriptScopeExit none).countP Event.isEmit = 0
    ∧ gum_error_message f =
        "\x7b\"type\":\"error\",\"lineNumber\":"
          ++ toString ((f.lineNumber : Int) - (GUM_SCRIPT_RUNTIME_SOURCE_LINE_COUNT : Int))
          ++ ",\"description\":\"" ++ g_strescape f.exceptionText ++ "\"\x7d" :=
  ⟨rfl, rfl, rfl, rfl⟩

/-- C9: every Execution Scope destruction signals the stalker's
`process_pending` hook exactly once, as its final action, whether or not
the script raised an exception. -/
theorem scriptscope_always_signals_stalker (caught : Option JsFailure) :
    (scriptScopeExit caught).countP Event.isStalkerSignal = 1
    ∧ (scriptScopeExit caught).getLast? = some Event.stalkerProcessPending := by
  cases caught <;> exact ⟨rfl, rfl⟩

/-- C6: both the compile-error `GError` line and the runtime error
message's `lineNumber` field equal the engine's reported line number minus
`GUM_SCRIPT_RUNTIME_SOURCE_LINE_COUNT` (which is 1, the bootstrap's line
count). -/
theorem reported_lines_discount_bootstrap (E : Engine) (runtimeSource : String)
    (s : ScriptState) (f g : JsFailure)
    (hc : E.compile (combinedSource runtimeSource s.source) = some f) :
    (gum_script_create_context E runtimeSource s).error =
      some { line := (f.lineNumber : Int) - (GUM_SCRIPT_RUNTIME_SOURCE_LINE_COUNT : Int),
             exceptionText := f.exceptionText }
    ∧ gum_error_message g =
        "\x7b\"type\":\"error\",\"lineNumber\":"
          ++ toString ((g.lineNumber : Int) - (GUM_SCRIPT_RUNTIME_SOURCE_LINE_COUNT : Int))
          ++ ",\"description\":\"" ++ g_strescape g.exceptionText ++ "\"\x7d"
    ∧ GUM_SCRIPT_RUNTIME_SOURCE_LINE_COUNT = 1 := by
  refine ⟨?_, rfl, rfl⟩
  simp [gum_script_create_context, hc]

/-- Witness for C6 at a concrete failing engine. -/
theorem reported_lines_discount_bootstrap_witness :
    (gum_script_create_context engineCompileFail "boot"
        (ScriptState.initial "user")).error =
      some { line := ((3 : Nat) : Int) - (GUM_SCRIPT_RUNTIME_SOURCE_LINE_COUNT : Int),
             exceptionText := "SyntaxError: Unexpected token" }
    ∧ gum_error_message { lineNumber := 2, exceptionText := "Error: boom" } =
        "\x7b\"type\":\"error\",\"lineNumber\":"
          ++ toString (((2 : Nat) : Int) - (GUM_SCRIPT_RUNTIME_SOURCE_LINE_COUNT : Int))
          ++ ",\"description\":\""
          ++ g_strescape "Error: boom" ++ "\"\x7d"
    ∧ GUM_SCRIPT_RUNTIME_SOURCE_LINE_COUNT = 1 :=
  reported_lines_discount_bootstrap engineCompileFail "boot"
    (ScriptState.initial "user")
    { lineNumber := 3, exceptionText := "SyntaxError: Unexpected token" }
    { lineNumber := 2, exceptionText := "Error: boom" } (by rfl)

/-- C1: `gum_script_from_string` returns a handle iff no error is set
(never both, never neither); on failure the handle is NULL and the
torn-down instance has no context and no compiled program; and when the
engine's diagnostic points past the bootstrap lines (into the user's
source), the reported line is ≥ 1. -/
theorem from_string_handle_xor_error (E : Engine) (runtimeSource source : String)
    (hline : ∀ f, E.compile (combinedSource runtimeSource source) = some f →
      GUM_SCRIPT_RUNTIME_SOURCE_LINE_COUNT < f.lineNumber) :
    ((gum_script_from_string E runtimeSource source).script.isSome ↔
      (gum_script_from_string E runtimeSource source).error = none)
    ∧ ((gum_script_from_string E runtimeSource source).script = none →
        (gum_script_from_string E runtimeSource source).priv.context = false
        ∧ (gum_script_from_string E runtimeSource source).priv.raw_script = false)
    ∧ (∀ e, (gum_script_from_string E runtimeSource source).error = some e →
        1 ≤ e.line) := by
  cases hc : E.compile (combinedSource runtimeSource source) with
  | none =>
      simp [gum_script_from_string, gum_script_create_context, ScriptState.initial, hc]
  | some f =>
      have hf := hline f hc
      have h1 : (1 : Int) ≤ (f.lineNumber : Int) - (GUM_SCRIPT_RUNTIME_SOURCE_LINE_COUNT : Int) := by
        unfold GUM_SCRIPT_RUNTIME_SOURCE_LINE_COUNT at hf ⊢
        omega
      refine ⟨?_, ?_, ?_⟩ <;>
        simp [gum_script_from_string, gum_script_create_context,
          gum_script_destroy_context, ScriptState.initial, hc]
      exact h1

/-- Witness for C1 at a concrete failing engine. -/
theorem from_string_handle_xor_error_witness :
    ((gum_script_from_string engineCompileFail "boot" "user").script.isSome ↔
      (gum_script_from_string engineCompileFail "boot" "user").error = none)
    ∧ ((gum_script_from_string engineCompileFail "boot" "user").script = none →
        (gum_script_from_string engineCompileFail "boot" "user").priv.context = false
        ∧ (gum_script_from_string engineCompileFail "boot" "user").priv.raw_script = false)
    ∧ (∀ e, (gum_script_from_string engineCompileFail "boot" "user").error = some e →
        1 ≤ e.line) :=
  from_string_handle_xor_error engineCompileFail "boot" "user"
    (by intro f hf; cases hf; decide)

/-- C3: with a compiled program present and the instance not yet loaded,
two consecutive `gum_script_load` calls run the program exactly once: the
second call changes no state and produces no events. -/
theorem load_twice_runs_once (E : Engine) (runtimeSource : String)
    (s : ScriptState) (hraw : s.raw_script = true) (hloaded : s.loaded = false) :
    ((gum_script_load E runtimeSource s).2
        ++ (gum_script_load E runtimeSource
              (gum_script_load E runtimeSource s).1).2).countP Event.isRun = 1
    ∧ gum_script_load E runtimeSource (gum_script_load E runtimeSource s).1 =
        ((gum_script_load E runtimeSource s).1, []) := by
  have h1 : gum_script_load E runtimeSource s =
      ({ s with loaded := true },
       [Event.setLoaded true, Event.runProgram]
         ++ scriptScopeExit (E.run (combinedSource runtimeSource s.source))) := by
    simp [gum_script_load, hraw, hloaded]
  have h2 : gum_script_load E runtimeSource { s with loaded := true } =
      ({ s with loaded := true }, []) := by
    simp [gum_script_load, hraw]
  rw [h1]
  refine ⟨?_, h2⟩
  rw [h2]
  simp [List.countP_append, scriptScopeExit_countP_isRun, Event.isRun]

/-- Witness for C3 at a concrete instance and engine. -/
theorem load_twice_runs_once_witness :
    ((gum_script_load engineOk "boot"
          { source := "user", context := true, raw_script := true,
            loaded := false, isolate := true }).2
        ++ (gum_script_load engineOk "boot"
              (gum_script_load engineOk "boot"
                { source := "user", context := true, raw_script := true,
                  loaded := false, isolate := true }).1).2).countP Event.isRun = 1
    ∧ gum_script_load engineOk "boot"
        (gum_script_load engineOk "boot"
          { source := "user", context := true, raw_script := true,
            loaded := false, isolate := true }).1 =
        ((gum_script_load engineOk "boot"
            { source := "user", context := true, raw_script := true,
              loaded := false, isolate := true }).1, []) :=
  load_twice_runs_once engineOk "boot"
    { source := "user", context := true, raw_script := true,
      loaded := false, isolate := true } rfl rfl

/-- C7: `gum_script_load` on an instance with no compiled program whose
context rebuild fails returns normally with the instance torn down: the
rebuild's error is discarded (the C call passes `NULL` for the out
parameter and returns `void`), no program runs, and no message is
emitted. -/
theorem load_swallows_rebuild_error (E : Engine) (runtimeSource : String)
    (s : ScriptState) (f : JsFailure)
    (hraw : s.raw_script = false)
    (hc : E.compile (combinedSource runtimeSource s.source) = some f) :
    (gum_script_load E runtimeSource s).1 =
      { source := s.source, context := false, raw_script := false,
        loaded := false, isolate := s.isolate }
    ∧ (gum_script_load E runtimeSource s).2.countP Event.isRun = 0
    ∧ (gum_script_load E runtimeSource s).2.countP Event.isEmit = 0 := by
  have h1 : gum_script_load E runtimeSource s =
      ({ s with context := false, raw_script := false, loaded := false },
       (gum_script_create_context E runtimeSource s).events) := by
    simp [gum_script_load, gum_script_create_context, gum_script_destroy_context, hraw, hc]
  rw [h1]
  refine ⟨rfl, ?_, ?_⟩ <;>
    simp [gum_script_create_context, gum_script_destroy_context, hc,
      createContextPrefix, initOrder, Event.isRun, Event.isEmit]

/-- Witness for C7 at a concrete failing engine. -/
theorem load_swallows_rebuild_error_witness :
    (gum_script_load engineCompileFail "boot" (ScriptState.initial "user")).1 =
      { source := "user", context := false, raw_script := false,
        loaded := false, isolate := true }
    ∧ (gum_script_load engineCompileFail "boot" (ScriptState.initial "user")).2.countP
        Event.isRun = 0
    ∧ (gum_script_load engineCompileFail "boot" (ScriptState.initial "user")).2.countP
        Event.isEmit = 0 :=
  load_swallows_rebuild_error engineCompileFail "boot" (ScriptState.initial "user")
    { lineNumber := 3, exceptionText := "SyntaxError: Unexpected token" }
    rfl (by rfl)

/-- C10: `gum_script_load` sets the `loaded` flag (trace event
`setLoaded true`) strictly before the program runs (`runProgram`), and a
re-entrant `load` on the loaded state is a no-op, so the program is never
run recursively. -/
theorem load_marks_loaded_before_running (E : Engine) (runtimeSource : String)
    (s : ScriptState) (hraw : s.raw_script = true) (hloaded : s.loaded = false) :
    (gum_script_load E runtimeSource s).2.take 2 =
      [Event.setLoaded true, Event.runProgram]
    ∧ gum_script_load E runtimeSource { s with loaded := true } =
        ({ s with loaded := true }, []) := by
  constructor
  · simp [gum_script_load, hraw, hloaded]
  · simp [gum_script_load, hraw]

/-- Witness for C10 at a concrete instance and engine. -/
theorem load_marks_loaded_before_running_witness :
    (gum_script_load engineOk "boot"
        { source := "user", context := true, raw_script := true,
          loaded := false, isolate := true }).2.take 2 =
      [Event.setLoaded true, Event.runProgram]
    ∧ gum_script_load engineOk "boot"
        { source := "user", context := true, raw_script := true,
          loaded := true, isolate := true } =
        ({ source := "user", context := true, raw_script := true,
           loaded := true, isolate := true }, []) :=
  load_marks_loaded_before_running engineOk "boot"
    { source := "user", context := true, raw_script := true,
      loaded := false, isolate := true } rfl rfl

/-- C5: every public operation (`gum_script_from_string`,
`gum_script_load`, `gum_script_unload`, `gum_script_dispose`) preserves the
Script Instance invariant: context and compiled program both present or
both absent, and `loaded` only with a compiled program present. -/
theorem public_ops_preserve_invariant (E : Engine) (runtimeSource source : String)
    (s : ScriptState) (h : ScriptInv s) :
    ScriptInv (gum_script_from_string E runtimeSource source).priv
    ∧ (∀ t, (gum_script_from_string E runtimeSource source).script = some t →
        ScriptInv t)
    ∧ ScriptInv (gum_script_load E runtimeSource s).1
    ∧ ScriptInv (gum_script_unload s).1
    ∧ ScriptInv (gum_script_dispose s).1 := by
  obtain ⟨hcr, hlr⟩ := h
  obtain ⟨src, c, r, l, iso⟩ := s
  simp only at hcr hlr
  refine ⟨?_, ?_, ?_, ?_, ?_⟩
  · cases hc : E.compile (combinedSource runtimeSource source) <;>
      simp [gum_script_from_string, gum_script_create_context,
        gum_script_destroy_context, ScriptState.initial, ScriptInv, hc]
  · intro t ht
    cases hc : E.compile (combinedSource runtimeSource source) with
    | some f =>
        simp [gum_script_from_string, gum_script_create_context,
          gum_script_destroy_context, ScriptState.initial, hc] at ht
    | none =>
        have hs : (gum_script_from_string E runtimeSource source).script =
            some { source := source, context := true, raw_script := true,
                   loaded := false, isolate := true } := by
          simp [gum_script_from_string, gum_script_create_context,
            ScriptState.initial, hc]
        rw [hs] at ht
        injection ht with ht2
        subst ht2
        exact ⟨rfl, fun _ => rfl⟩
  · cases hc : E.compile (combinedSource runtimeSource src) <;>
      cases r <;> cases l <;> cases c <;>
        simp_all [gum_script_load, gum_script_create_context,
          gum_script_destroy_context, scriptScopeExit, ScriptInv]
  · cases r <;> cases l <;> cases c <;>
      simp_all [gum_script_unload, gum_script_destroy_context, ScriptInv]
  · cases r <;> cases l <;> cases c <;>
      simp_all [gum_script_dispose, gum_script_unload,
        gum_script_destroy_context, ScriptInv]

/-- Witness for C5 at a concrete fresh instance and engine. -/
theorem public_ops_preserve_invariant_witness :
    ScriptInv (gum_script_from_string engineOk "boot" "user").priv
    ∧ ScriptInv (gum_script_load engineOk "boot" (ScriptState.initial "user")).1
    ∧ ScriptInv (gum_script_unload (ScriptState.initial "user")).1
    ∧ ScriptInv (gum_script_dispose (ScriptState.initial "user")).1 :=
  ⟨(public_ops_preserve_invariant engineOk "boot" "user"
      (ScriptState.initial "user") (by decide)).1,
   (public_ops_preserve_invariant engineOk "boot" "user"
      (ScriptState.initial "user") (by decide)).2.2.1,
   (public_ops_preserve_invariant engineOk "boot" "user"
      (ScriptState.initial "user") (by decide)).2.2.2.1,
   (public_ops_preserve_invariant engineOk "boot" "user"
      (ScriptState.initial "user") (by decide)).2.2.2.2⟩

/-- C8: registering a debug handler and then unregistering it invokes the
handler's release callback exactly once and removes the engine hook and
debug-context reference; and registering a new handler over a previous one
first uninstalls and releases the previous one, leaving only the new
handler registered. -/
theorem set_debug_handler_releases_previous_once (st : DebugState) (f d n : Nat)
    (h : st.gum_debug_handler = none) :
    ((gum_script_set_debug_message_handler (some f) d (some n) st).2
        ++ (gum_script_set_debug_message_handler none 0 none
              (gum_script_set_debug_message_handler (some f) d (some n) st).1).2 =
      [Event.debugHookInstalled, Event.retainDebugContext,
       Event.releaseDebugContext, Event.debugHookRemoved,
       Event.notifyInvoked n d])
    ∧ ((gum_script_set_debug_message_handler (some f) d (some n) st).2
        ++ (gum_script_set_debug_message_handler none 0 none
              (gum_script_set_debug_message_handler (some f) d (some n) st).1).2).countP
          Event.isNotify = 1
    ∧ (gum_script_set_debug_message_handler none 0 none
        (gum_script_set_debug_message_handler (some f) d (some n) st).1).1 =
      DebugState.initial
    ∧ (∀ st2 f2 d2 n2 m nn, st2.gum_debug_handler = some m →
        st2.gum_debug_notify = some nn →
        (gum_script_set_debug_message_handler (some f2) d2 n2 st2).1.gum_debug_handler
            = some f2
        ∧ (gum_script_set_debug_message_handler (some f2) d2 n2 st2).2 =
            [Event.releaseDebugContext, Event.debugHookRemoved,
             Event.notifyInvoked nn st2.gum_debug_data,
             Event.debugHookInstalled, Event.retainDebugContext]) := by
  have e1 : gum_script_set_debug_message_handler (some f) d (some n) st =
      ({ gum_debug_handler := some f, gum_debug_data := d,
         gum_debug_notify := some n, gum_debug_context := true,
         engineHook := true },
       [Event.debugHookInstalled, Event.retainDebugContext]) := by
    simp [gum_script_set_debug_message_handler, h]
  have e2 : gum_script_set_debug_message_handler none 0 none
      { gum_debug_handler := some f, gum_debug_data := d,
        gum_debug_notify := some n, gum_debug_context := true,
        engineHook := true } =
      (DebugState.initial,
       [Event.releaseDebugContext, Event.debugHookRemoved,
        Event.notifyInvoked n d]) := by
    simp [gum_script_set_debug_message_handler, DebugState.initial]
  rw [e1]
  refine ⟨?_, ?_, ?_, ?_⟩
  · rw [e2]
    rfl
  · rw [e2]
    rfl
  · rw [e2]
  · intro st2 f2 d2 n2 m nn h2 h3
    constructor <;> simp [gum_script_set_debug_message_handler, h2, h3]

/-- Witness for C8 at a concrete handler triple over a clean state. -/
theorem set_debug_handler_releases_previous_once_witness :
    ((gum_script_set_debug_message_handler (some 1) 2 (some 3) DebugState.initial).2
        ++ (gum_script_set_debug_message_handler none 0 none
              (gum_script_set_debug_message_handler (some 1) 2 (some 3)
                DebugState.initial).1).2 =
      [Event.debugHookInstalled, Event.retainDebugContext,
       Event.releaseDebugContext, Event.debugHookRemoved,
       Event.notifyInvoked 3 2])
    ∧ ((gum_script_set_debug_message_handler (some 1) 2 (some 3) DebugState.initial).2
        ++ (gum_script_set_debug_message_handler none 0 none
              (gum_script_set_debug_message_handler (some 1) 2 (some 3)
                DebugState.initial).1).2).countP Event.isNotify = 1
    ∧ (gum_script_set_debug_message_handler none 0 none
        (gum_script_set_debug_message_handler (some 1) 2 (some 3)
          DebugState.initial).1).1 = DebugState.initial :=
  ⟨(set_debug_handler_releases_previous_once DebugState.initial 1 2 3 rfl).1,
   (set_debug_handler_releases_previous_once DebugState.initial 1 2 3 rfl).2.1,
   (set_debug_handler_releases_previous_once DebugState.initial 1 2 3 rfl).2.2.1⟩

end GumScript
